import Mathlib


/-!
# Verification of `light_curves/code/gaia_functions.py`

Shallow embedding of the Gaia light-curve pipeline. The external Gaia
archive service is modelled by oracles (`cs` for cone searches, `epochSvc`
for the DataLink bulk download). Floating-point numbers are modelled by
exact rationals; the two transcendental operations the code uses,
`10**x` (numpy broadcast power) and `np.log(10)`, are abstracted as a
parameter `exp10 : ℚ → ℚ` and a parameter `ln10 : ℚ`, so every theorem
holds for every interpretation of them. The `verbose` parameters only
drive printing and are dropped.
-/

/-- A sky coordinate (an Astropy SkyCoord). The code never inspects its
components, it only hands it to the archive service, so it is modelled
as an opaque identifier. -/
abbrev Coord := ℕ

/-- One row of the table returned by `Gaia.cone_search_async(...)` for a
single coordinate, restricted to the columns the pipeline reads.
`dist` is the angular distance to the search centre; the service reports
it in degrees and `Gaia_retrieve_median_photometry` converts the column
to arcseconds in place. `input_object_name` is the column the code adds
after the search (default until then). -/
structure CatRow where
  dist : ℚ
  source_id : ℕ
  phot_g_mean_mag : ℚ
  phot_bp_mean_mag : ℚ
  phot_rp_mean_mag : ℚ
  phot_g_mean_flux : ℚ
  phot_bp_mean_flux : ℚ
  phot_rp_mean_flux : ℚ
  phot_g_mean_flux_error : ℚ
  phot_bp_mean_flux_error : ℚ
  phot_rp_mean_flux_error : ℚ
  input_object_name : ℕ := 0
  deriving DecidableEq

/-- One row of the table built by `Gaia_extract_median_photometry`:
mean magnitudes, magnitude errors derived from the flux errors, plus the
identification columns carried along. -/
structure PhotRow where
  input_object_name : ℕ
  source_id : ℕ
  phot_g_mean_mag : ℚ
  phot_bp_mean_mag : ℚ
  phot_rp_mean_mag : ℚ
  phot_g_mean_mag_error : ℚ
  phot_bp_mean_mag_error : ℚ
  phot_rp_mean_mag_error : ℚ
  deriving DecidableEq

/-- One row of an `EPOCH_PHOTOMETRY` table downloaded via DataLink,
restricted to the columns `Gaia_mk_lightcurves` reads. `time` is the
Gaia mission time stamp (days; the code adds 2455197.5 to obtain a
Julian Date). -/
structure EpochRow where
  band : String
  rejected_by_photometry : Bool
  time : ℚ
  mag : ℚ
  flux : ℚ
  flux_error : ℚ
  deriving DecidableEq

/-- One row of a per-band light-curve table produced by
`Gaia_mk_lightcurves`: Julian-Date time stamp, magnitude, magnitude
error. (`time_isot` is the same instant rendered as a string; the round
trip through it is modelled exactly, so it is not carried separately.) -/
structure LCEntry where
  time_jd : ℚ
  mag : ℚ
  magerr : ℚ
  deriving DecidableEq

/-- The three Gaia photometric bands iterated over by the loops
`for band in ["G","BP","RP"]`. -/
inductive GaiaBand where
  | G | BP | RP
  deriving DecidableEq

/-- The band name string as it appears in the loops of the source. -/
def GaiaBand.str : GaiaBand → String
  | .G => "G"
  | .BP => "BP"
  | .RP => "RP"

/-- The loop list `["G","BP","RP"]`. -/
def gaiaBands : List GaiaBand := [.G, .BP, .RP]

/-- One observable interaction with the outside world, used to state in
which order the pipeline stages touch the archive.  `coneSearchEv`
records one `Gaia.cone_search_async` call (coordinate and radius),
`datalinkEv` one bulk `Gaia.load_data` call, `plotEv` the production of
a figure. -/
inductive GaiaEvent where
  | coneSearchEv (coord : Coord) (radius : ℚ)
  | datalinkEv (ids : List ℕ)
  | plotEv
  deriving DecidableEq

/-- The runtime error `Gaia_mk_MultiIndex` can raise at its `return`
statement: reading the accumulator `this_df_lc` when it was never bound
raises `UnboundLocalError` (a subclass of `NameError`). -/
inductive GaiaErr where
  | nameError
  deriving DecidableEq

/-! ## Stage 1: `Gaia_retrieve_median_photometry` -/

/-- The matching step performed for one element `(objectid, coord)` of
`coords_list` on the raw cone-search result `raw`:
the `dist` column is converted from degrees to arcseconds (× 3600), the
`input_object_name` column is set to `objectid`, and `np.where` selects
every row whose distance is below 1 arcsec and equal to the minimum
distance (`np.nanmin`); `vstack` then appends all selected rows. -/
def matchSel (objectid : ℕ) (raw : List CatRow) : List CatRow :=
  let data := raw.map (fun r =>
    { r with dist := r.dist * 3600, input_object_name := objectid })
  match data with
  | [] => []
  | d0 :: ds =>
      let mn := ds.foldl (fun a r => min a r.dist) d0.dist
      data.filter (fun r => decide (r.dist < 1) && decide (r.dist = mn))

/-- `Gaia_retrieve_median_photometry(coords_list, labels_list,
gaia_source_table, search_radius, verbose)`.  The archive is the oracle
`cs` (one call per coordinate, at the given radius, against the given
source table — the table name only configures the service, so it is an
unused parameter of the model, as is `labels_list`, which the source
never reads).  Returns the accumulated `vstack`-ed catalog table paired
with the trace of service calls made, in order. -/
def Gaia_retrieve_median_photometry (cs : Coord → List CatRow)
    (coords_list : List (ℕ × Coord)) (labels_list : ℕ → String)
    (gaia_source_table : String) (search_radius : ℚ) :
    List CatRow × List GaiaEvent :=
  match coords_list with
  | [] => ([], [])
  | (objectid, coord) :: rest =>
      let data := cs coord
      let (tab, ev) := Gaia_retrieve_median_photometry cs rest labels_list
        gaia_source_table search_radius
      (matchSel objectid data ++ tab, .coneSearchEv coord search_radius :: ev)

/-! ## Stage 2: `Gaia_extract_median_photometry` -/

/-- `Gaia_extract_median_photometry(gaia_table)`: keeps the three mean
magnitudes, computes the magnitude error of each band as
`2.5/np.log(10) * flux_error/flux`, and carries `source_id` and
`input_object_name` along.  (The `n_obs` columns are copied too but
never read again, so they are not modelled.) -/
def Gaia_extract_median_photometry (ln10 : ℚ) (gaia_table : List CatRow) :
    List PhotRow :=
  gaia_table.map (fun r =>
    { input_object_name := r.input_object_name
      source_id := r.source_id
      phot_g_mean_mag := r.phot_g_mean_mag
      phot_bp_mean_mag := r.phot_bp_mean_mag
      phot_rp_mean_mag := r.phot_rp_mean_mag
      phot_g_mean_mag_error := 5/2 / ln10 * r.phot_g_mean_flux_error / r.phot_g_mean_flux
      phot_bp_mean_mag_error := 5/2 / ln10 * r.phot_bp_mean_flux_error / r.phot_bp_mean_flux
      phot_rp_mean_mag_error := 5/2 / ln10 * r.phot_rp_mean_flux_error / r.phot_rp_mean_flux })

/-! ## Stage 3: `Gaia_retrieve_EPOCH_PHOTOMETRY` -/

/-- `Gaia_retrieve_EPOCH_PHOTOMETRY(ids, verbose)`: one bulk
`Gaia.load_data` call for the whole id list (the oracle `epochSvc`
returns the DataLink products as a dictionary keyed by source id), then
one pass over `ids` keeping, for each id whose key
`EPOCH_PHOTOMETRY-Gaia DR3 (id).xml` is present, its table; absent ids
are skipped.  Returns the dictionary paired with the trace. -/
def Gaia_retrieve_EPOCH_PHOTOMETRY
    (epochSvc : List ℕ → List (ℕ × List EpochRow)) (ids : List ℕ) :
    List (ℕ × List EpochRow) × List GaiaEvent :=
  let datalink := epochSvc ids
  (ids.filterMap (fun dd => (datalink.lookup dd).map (fun t => (dd, t))),
   [.datalinkEv ids])

/-! ## Stage 4a: `Gaia_mk_lightcurves` -/

/-- The body of the band loop in `Gaia_mk_lightcurves` for one source's
product table `rows` and one `band` string: `np.where` keeps the rows
whose `band` column equals `band` and whose `rejected_by_photometry`
flag is `False`; each kept row becomes a light-curve entry with
`time_jd = time + 2455197.5`, the magnitude unchanged, and
`magerr = 2.5/np.log(10) * flux_error/flux`. -/
def mkLightcurveBand (ln10 : ℚ) (rows : List EpochRow) (band : String) :
    List LCEntry :=
  (rows.filter (fun r => r.band == band && r.rejected_by_photometry == false)).map
    (fun r =>
      { time_jd := r.time + 2455197.5
        mag := r.mag
        magerr := 5/2 / ln10 * r.flux_error / r.flux })

/-- `Gaia_mk_lightcurves(prod_tab, verbose)`: for every source id of the
product dictionary, a dictionary of per-band light-curve tables for the
bands `"G"`, `"BP"`, `"RP"`. -/
def Gaia_mk_lightcurves (ln10 : ℚ) (prod_tab : List (ℕ × List EpochRow)) :
    List (ℕ × List (String × List LCEntry)) :=
  prod_tab.map (fun kv =>
    (kv.1, gaiaBands.map (fun band =>
      (band.str, mkLightcurveBand ln10 kv.2 band.str))))

/-! ## Magnitude-to-flux conversion and the hard-coded fallback epoch -/

/-- The magnitude-to-flux conversion both branches of
`Gaia_mk_MultiIndex` use: `y2 = 10**(-0.4*(y - 23.9))/1e3` (mJy). -/
def gaiaMagToFlux (exp10 : ℚ → ℚ) (y : ℚ) : ℚ :=
  exp10 (-(2/5) * (y - 239/10)) / 1000

/-- The flux-error conversion both branches of `Gaia_mk_MultiIndex` use:
`dy2 = dy / 2.5 * np.log(10) * y2` (mJy). -/
def gaiaFluxErr (ln10 : ℚ) (dy y2 : ℚ) : ℚ :=
  dy / (5/2) * ln10 * y2

/-- Days from the Unix epoch 1970-01-01 to the proleptic-Gregorian civil
date `y-m-d` (Howard Hinnant's `days_from_civil` algorithm, the one
calendar conversions in date libraries implement). -/
def daysFromCivil (y m d : ℤ) : ℤ :=
  let y1 := if m ≤ 2 then y - 1 else y
  let era := (if 0 ≤ y1 then y1 else y1 - 399) / 400
  let yoe := y1 - era * 400
  let doy := (153 * (if 2 < m then m - 3 else m + 9) + 2) / 5 + d - 1
  let doe := yoe * 365 + yoe / 4 - yoe / 100 + doy
  era * 146097 + doe - 719468

/-- The Modified Julian Date of the civil instant
`y-m-d hh:mi` plus `ms` milliseconds (UTC): MJD 40587 is 1970-01-01. -/
def mjdOfCivil (y m d hh mi ms : ℤ) : ℚ :=
  ((daysFromCivil y m d + 40587 : ℤ) : ℚ) +
    ((hh * 3600000 + mi * 60000 + ms : ℤ) : ℚ) / 86400000

/-- The value of `Time("2015-09-24T19:40:33.468", format="isot").mjd`,
the hard-coded epoch of every mean-photometry fallback row. -/
def gaiaFallbackMJD : ℚ := mjdOfCivil 2015 9 24 19 40 33468

/-! ## Stage 4b: `Gaia_mk_MultiIndex` -/

/-- One row of the long-format light-curve DataFrame, holding the six
columns of the `dict(...)` the code builds: `flux`, `err`, `time`,
`objectid`, `label`, `band`, in that insertion order. -/
structure LCRow where
  flux : ℚ
  err : ℚ
  time : ℚ
  objectid : ℕ
  label : String
  band : String
  deriving DecidableEq

/-- A Pandas DataFrame over `LCRow` rows: the names of the index levels,
the names of the remaining data columns, and the rows. -/
structure DataFrame where
  indexNames : List String
  cols : List String
  rows : List LCRow
  deriving DecidableEq

/-- `pd.DataFrame(dict(flux=..., err=..., time=..., objectid=...,
label=..., band=...))`: a plain (unindexed) frame whose columns are the
dict keys in insertion order. -/
def pdDataFrameDict (rows : List LCRow) : DataFrame :=
  { indexNames := []
    cols := ["flux", "err", "time", "objectid", "label", "band"]
    rows := rows }

/-- `df.set_index(names)`: the named columns move from the data columns
to the index. -/
def setIndex (df : DataFrame) (names : List String) : DataFrame :=
  { indexNames := names
    cols := df.cols.filter (fun c => !names.contains c)
    rows := df.rows }

/-- `pd.concat([a, b])` for frames of identical schema: the rows of `b`
follow the rows of `a`. -/
def pdConcat (a b : DataFrame) : DataFrame :=
  { a with rows := a.rows ++ b.rows }

/-- The accumulation pattern of `Gaia_mk_MultiIndex`:
`try: this_df_lc / except NameError: this_df_lc = dfsingle.copy() /
else: this_df_lc = pd.concat([this_df_lc, dfsingle])` folded over the
sequence of `dfsingle` frames created; `none` means the accumulator was
never bound. -/
def concatAll : List DataFrame → Option DataFrame
  | [] => none
  | df :: rest => some (rest.foldl pdConcat df)

/-- The index columns of every `dfsingle`:
`.set_index(["objectid","label","band","time"])`. -/
def gaiaIndexNames : List String := ["objectid", "label", "band", "time"]

/-- The `dfsingle` built in the epoch-photometry branch for one object
and one band: one output row per light-curve entry, with
`flux = 10**(-0.4*(mag - 23.9))/1e3`, `err = magerr/2.5*log(10)*flux`,
`time` the MJD of the entry's time stamp (the Julian Date minus
2400000.5; the code goes through the ISOT string, `Time(d,
format="isot")`, which denotes the same instant), and the band column
`"Gaia "` followed by the lower-cased band name. -/
def epochDF (exp10 : ℚ → ℚ) (ln10 : ℚ) (objectid : ℕ) (lab : String)
    (bandTabs : List (String × List LCEntry)) (band : GaiaBand) : DataFrame :=
  let entries := (bandTabs.lookup band.str).getD []
  setIndex (pdDataFrameDict (entries.map (fun e =>
    let y2 := exp10 (-(2/5) * (e.mag - 239/10)) / 1000
    { flux := y2
      err := e.magerr / (5/2) * ln10 * y2
      time := e.time_jd - 2400000.5
      objectid := objectid
      label := lab
      band := "Gaia " ++ band.str.toLower }))) gaiaIndexNames

/-- The `dfsingle` built in the mean-photometry fallback branch for one
object and one band: one output row per selected catalog row (the numpy
arrays are the columns at all indices of `sel`), the same flux formulas
applied to `phot_(band)_mean_mag` and its error, and the single
hard-coded time stamp `Time("2015-09-24T19:40:33.468").mjd`. -/
def fallbackDF (exp10 : ℚ → ℚ) (ln10 : ℚ) (objectid : ℕ) (lab : String)
    (sel : List PhotRow) (band : GaiaBand) : DataFrame :=
  setIndex (pdDataFrameDict (sel.map (fun p =>
    let y := match band with
      | .G => p.phot_g_mean_mag
      | .BP => p.phot_bp_mean_mag
      | .RP => p.phot_rp_mean_mag
    let dy := match band with
      | .G => p.phot_g_mean_mag_error
      | .BP => p.phot_bp_mean_mag_error
      | .RP => p.phot_rp_mean_mag_error
    let y2 := exp10 (-(2/5) * (y - 239/10)) / 1000
    { flux := y2
      err := dy / (5/2) * ln10 * y2
      time := gaiaFallbackMJD
      objectid := objectid
      label := lab
      band := "Gaia " ++ band.str.toLower }))) gaiaIndexNames

/-- The `dfsingle` frames created by the body of the object loop of
`Gaia_mk_MultiIndex` for one `objectid`: none when `np.where` finds no
catalog row for it; otherwise, writing `sel` for the matching rows (and
`sel[0]` for the first), three per-band frames — from epoch photometry
when `str(source_id)` is a key of `gaia_epoch_phot`, else from the mean
photometry. `lab = labels_list[objectid]` indexes the label list by the
object id. -/
def gaiaObjectDFs (exp10 : ℚ → ℚ) (ln10 : ℚ) (labels_list : ℕ → String)
    (gaia_phot : List PhotRow)
    (gaia_epoch_phot : List (ℕ × List (String × List LCEntry)))
    (objectid : ℕ) : List DataFrame :=
  let sel := gaia_phot.filter (fun p => p.input_object_name == objectid)
  let lab := labels_list objectid
  match sel with
  | [] => []
  | p0 :: _ =>
      match gaia_epoch_phot.lookup p0.source_id with
      | some bandTabs =>
          gaiaBands.map (fun band => epochDF exp10 ln10 objectid lab bandTabs band)
      | none =>
          gaiaBands.map (fun band => fallbackDF exp10 ln10 objectid lab sel band)

/-- `Gaia_mk_MultiIndex(coords_list, labels_list, gaia_phot,
gaia_epoch_phot, verbose)`: folds the per-object `dfsingle` frames into
the accumulator `this_df_lc`; if no frame was ever created (no object
matched), the `return(this_df_lc)` statement raises `NameError`. -/
def Gaia_mk_MultiIndex (exp10 : ℚ → ℚ) (ln10 : ℚ)
    (coords_list : List (ℕ × Coord)) (labels_list : ℕ → String)
    (gaia_phot : List PhotRow)
    (gaia_epoch_phot : List (ℕ × List (String × List LCEntry))) :
    Except GaiaErr DataFrame :=
  match concatAll (coords_list.flatMap (fun oc =>
      gaiaObjectDFs exp10 ln10 labels_list gaia_phot gaia_epoch_phot oc.1)) with
  | none => .error .nameError
  | some df => .ok df

/-! ## The main entry point: `Gaia_get_lightcurve` -/

/-- `Gaia_get_lightcurve(coords_list, labels_list, verbose)`: the
pipeline run in source order — retrieve the matched catalog table
(cone searches against `"gaiaedr3.gaia_source"` at 20 arcsec), extract
the median photometry, bulk-download epoch photometry for the matched
source ids, reshape into per-band light curves, and assemble the
long-format MultiIndex frame.  Returns the frame (the code wraps it in a
fresh `MultiIndexDFObject` via `append`) paired with the trace of
archive interactions, in order. -/
def Gaia_get_lightcurve (exp10 : ℚ → ℚ) (ln10 : ℚ)
    (cs : Coord → List CatRow)
    (epochSvc : List ℕ → List (ℕ × List EpochRow))
    (coords_list : List (ℕ × Coord)) (labels_list : ℕ → String) :
    Except GaiaErr DataFrame × List GaiaEvent :=
  let retr := Gaia_retrieve_median_photometry cs coords_list
    labels_list "gaiaedr3.gaia_source" 20
  let gaia_table := retr.1
  let gaia_phot := Gaia_extract_median_photometry ln10 gaia_table
  let ids := gaia_phot.map (fun p => p.source_id)
  let epres := Gaia_retrieve_EPOCH_PHOTOMETRY epochSvc ids
  let prod_tab := epres.1
  let gaia_epoch_phot := Gaia_mk_lightcurves ln10 prod_tab
  let df_lc_gaia := Gaia_mk_MultiIndex exp10 ln10 coords_list labels_list
    gaia_phot gaia_epoch_phot
  (df_lc_gaia, retr.2 ++ epres.2)

/-! ## `Gaia_plot_lightcurves` -/

/-- The error a plotting call can raise; its contents are irrelevant to
the control flow, so it is abstract. -/
abbrev PlotErr := String

/-- The inner band loop of `Gaia_plot_lightcurves` for one object:
the per-band plotting action `plotBand` (the `.loc` slice, the `Time`
conversion and the `errorbar` call) runs for `"G"`, `"BP"`, `"RP"` in
order, and its first failure aborts the rest of this object's bands. -/
def plotBands (plotBand : ℕ → GaiaBand → Except PlotErr Unit) (objectid : ℕ) :
    List GaiaBand → Except PlotErr Unit
  | [] => .ok ()
  | b :: bs =>
      match plotBand objectid b with
      | .error e => .error e
      | .ok _ => plotBands plotBand objectid bs

/-- The object loop of `Gaia_plot_lightcurves`: each object's band loop
runs inside `try: ... except: pass`, so a failure is recorded and the
loop moves on; an uncaught error would abort the whole loop, hence the
`Except` result.  Each processed object is listed with whether its
plotting succeeded. -/
def plotLoop (plotBand : ℕ → GaiaBand → Except PlotErr Unit) :
    List ℕ → Except PlotErr (List (ℕ × Bool))
  | [] => .ok []
  | objectid :: rest =>
      let status := match plotBands plotBand objectid gaiaBands with
        | .error _ => (objectid, false)
        | .ok _ => (objectid, true)
      match plotLoop plotBand rest with
      | .error e => .error e
      | .ok l => .ok (status :: l)

/-- `list(df_lc.data.index.levels[0])`: the distinct `objectid` values
of the MultiIndex (levels are stored sorted; the order is immaterial to
the properties proved here, so first-occurrence order is kept). -/
def gaiaObjectIds (df : DataFrame) : List ℕ :=
  (df.rows.map (fun r => r.objectid)).eraseDups

/-- `Gaia_plot_lightcurves(df_lc, nbr_objects)`: plots the first
`nbr_objects` object ids (`object_ids[0:int(nbr_objects)]`) and
`return(True)`. -/
def Gaia_plot_lightcurves (plotBand : ℕ → GaiaBand → Except PlotErr Unit)
    (df : DataFrame) (nbr_objects : ℕ) :
    Except PlotErr (Bool × List (ℕ × Bool)) :=
  match plotLoop plotBand ((gaiaObjectIds df).take nbr_objects) with
  | .error e => .error e
  | .ok l => .ok (true, l)

/-! ## Definitions used by theorem statements -/

/-- The column `phot_(band)_mean_mag` of a median-photometry row. -/
def PhotRow.meanMag (p : PhotRow) : GaiaBand → ℚ
  | .G => p.phot_g_mean_mag
  | .BP => p.phot_bp_mean_mag
  | .RP => p.phot_rp_mean_mag

/-- The column `phot_(band)_mean_mag_error` of a median-photometry row. -/
def PhotRow.meanMagErr (p : PhotRow) : GaiaBand → ℚ
  | .G => p.phot_g_mean_mag_error
  | .BP => p.phot_bp_mean_mag_error
  | .RP => p.phot_rp_mean_mag_error

/-- `e` is one of the light-curve entries stored somewhere in the epoch
photometry dictionary `gaia_epoch_phot` (any source, any band). -/
def entryInEpoch (gaia_epoch_phot : List (ℕ × List (String × List LCEntry)))
    (e : LCEntry) : Prop :=
  ∃ kv ∈ gaia_epoch_phot, ∃ bt ∈ kv.2, e ∈ bt.2

/-! ## Concrete fixtures (inputs used to instantiate the theorems) -/

/-- A concrete interpretation of `10**x` (its analytic properties are
irrelevant to every theorem, which holds for all interpretations). -/
def wExp10 : ℚ → ℚ := fun q => q

/-- A concrete interpretation of `np.log(10)`. -/
def wLn10 : ℚ := 1

/-- A concrete label list (`labels_list[objectid]`). -/
def wLabels : ℕ → String := fun _ => "x"

/-- A concrete median-photometry row matched to object 0. -/
def wPhot : PhotRow :=
  { input_object_name := 0, source_id := 5
    phot_g_mean_mag := 10, phot_bp_mean_mag := 11, phot_rp_mean_mag := 12
    phot_g_mean_mag_error := 1, phot_bp_mean_mag_error := 1
    phot_rp_mean_mag_error := 1 }

/-- A concrete cone-search result row at distance 1/7200 degree
(= 0.5 arcsec) from the search centre. -/
def wCatA : CatRow :=
  { dist := 1/7200, source_id := 5
    phot_g_mean_mag := 10, phot_bp_mean_mag := 11, phot_rp_mean_mag := 12
    phot_g_mean_flux := 1, phot_bp_mean_flux := 1, phot_rp_mean_flux := 1
    phot_g_mean_flux_error := 1, phot_bp_mean_flux_error := 1
    phot_rp_mean_flux_error := 1 }

/-- A second catalog row at exactly the same distance (a tie). -/
def wCatB : CatRow := { wCatA with source_id := 6 }

/-- A cone-search oracle returning two rows tied at 0.5 arcsec. -/
def wCS2 : Coord → List CatRow := fun _ => [wCatA, wCatB]

/-- A cone-search oracle returning a single row at 0.5 arcsec. -/
def wCS1 : Coord → List CatRow := fun _ => [wCatA]

/-- An accepted G-band epoch-photometry row. -/
def wEpochG : EpochRow :=
  { band := "G", rejected_by_photometry := false, time := 100, mag := 17
    flux := 200, flux_error := 4 }

/-- A G-band epoch-photometry row flagged `rejected_by_photometry`. -/
def wEpochGRej : EpochRow :=
  { band := "G", rejected_by_photometry := true, time := 101, mag := 18
    flux := 200, flux_error := 4 }

/-- An accepted BP-band epoch-photometry row. -/
def wEpochBP : EpochRow :=
  { band := "BP", rejected_by_photometry := false, time := 102, mag := 19
    flux := 100, flux_error := 2 }

/-- A concrete DataLink product dictionary for source id 5. -/
def wProdTab : List (ℕ × List EpochRow) := [(5, [wEpochG, wEpochGRej, wEpochBP])]

/-- The light-curve entry `Gaia_mk_lightcurves` produces from `wEpochG`
at `ln10 = 1`: `time_jd = 100 + 2455197.5`, `magerr = 2.5/1 * 4/200`. -/
def wEntryG : LCEntry := { time_jd := 4910595/2, mag := 17, magerr := 1/20 }

/-- The G-band fallback row `Gaia_mk_MultiIndex` emits for `wPhot` at
`exp10 = id`, `ln10 = 1`: `flux = (-(2/5)*(10 - 23.9))/1000`,
`err = 1/2.5 * flux`. -/
def wRowG : LCRow :=
  { flux := 139/25000, err := 139/62500, time := gaiaFallbackMJD
    objectid := 0, label := "x", band := "Gaia g" }

/-- The light-curve entry `Gaia_mk_lightcurves` produces from
`wEpochBP` at `ln10 = 1`. -/
def wEntryBP : LCEntry := { time_jd := 4910599/2, mag := 19, magerr := 1/20 }

/-- The per-band dictionary `Gaia_mk_lightcurves wLn10 wProdTab` builds
for source id 5: the rejected G row is dropped, the RP table is empty. -/
def wBandTabs : List (String × List LCEntry) :=
  [("G", [wEntryG]), ("BP", [wEntryBP]), ("RP", [])]

/-- The full frame `Gaia_mk_MultiIndex` produces for the single
coordinate list `[(0, 0)]`, photometry `[wPhot]` and an empty epoch
dictionary: three fallback rows, one per band. -/
def wDF : DataFrame :=
  { indexNames := ["objectid", "label", "band", "time"]
    cols := ["flux", "err"]
    rows := [
      { flux := 139/25000, err := 139/62500, time := gaiaFallbackMJD
        objectid := 0, label := "x", band := "Gaia g" },
      { flux := 129/25000, err := 129/62500, time := gaiaFallbackMJD
        objectid := 0, label := "x", band := "Gaia bp" },
      { flux := 119/25000, err := 119/62500, time := gaiaFallbackMJD
        objectid := 0, label := "x", band := "Gaia rp" }] }

/-- The row `matchSel` keeps from `wCS1`: `wCatA` with its distance
converted to arcseconds and the object name filled in. -/
def wCatASel : CatRow := { wCatA with dist := 1/2, input_object_name := 0 }

instance : DecidableEq (Except GaiaErr DataFrame)
  | .ok x, .ok y => decidable_of_iff (x = y) (by simp)
  | .ok _, .error _ => isFalse (by simp)
  | .error _, .ok _ => isFalse (by simp)
  | .error x, .error y => decidable_of_iff (x = y) (by simp)

/-! ## Helper lemmas -/

theorem retrieve_fst (cs : Coord → List CatRow) (coords_list : List (ℕ × Coord))
    (labels_list : ℕ → String) (tbl : String) (rad : ℚ) :
    (Gaia_retrieve_median_photometry cs coords_list labels_list tbl rad).1
      = coords_list.flatMap (fun oc => matchSel oc.1 (cs oc.2)) := by
  induction coords_list with
  | nil => rfl
  | cons oc rest ih =>
      obtain ⟨oid, coord⟩ := oc
      simp only [Gaia_retrieve_median_photometry, List.flatMap_cons, ih]

theorem retrieve_snd (cs : Coord → List CatRow) (coords_list : List (ℕ × Coord))
    (labels_list : ℕ → String) (tbl : String) (rad : ℚ) :
    (Gaia_retrieve_median_photometry cs coords_list labels_list tbl rad).2
      = coords_list.map (fun oc => .coneSearchEv oc.2 rad) := by
  induction coords_list with
  | nil => rfl
  | cons oc rest ih =>
      obtain ⟨oid, coord⟩ := oc
      simp only [Gaia_retrieve_median_photometry, List.map_cons, ih]

theorem foldlMin_le (l : List CatRow) (a : ℚ) :
    l.foldl (fun b r => min b r.dist) a ≤ a ∧
    ∀ x ∈ l, l.foldl (fun b r => min b r.dist) a ≤ x.dist := by
  induction l generalizing a with
  | nil => simp
  | cons y ys ih =>
      refine ⟨?_, ?_⟩
      · exact le_trans (ih (min a y.dist)).1 (min_le_left _ _)
      · intro x hx
        rcases List.mem_cons.mp hx with h | h
        · subst h
          exact le_trans (ih (min a x.dist)).1 (min_le_right _ _)
        · exact (ih (min a y.dist)).2 x h

theorem filter_eq_value_length_le_one {α β : Type} [DecidableEq β]
    (f : α → β) (p : α → Bool) (v : β) (l : List α)
    (h : l.Pairwise (fun a b => f a ≠ f b)) :
    (l.filter (fun x => p x && decide (f x = v))).length ≤ 1 := by
  induction l with
  | nil => simp
  | cons a t ih =>
      rcases List.pairwise_cons.mp h with ⟨ha, ht⟩
      by_cases hk : (p a && decide (f a = v)) = true
      · have hfav : f a = v := of_decide_eq_true (Bool.and_elim_right hk)
        have hempty : t.filter (fun x => p x && decide (f x = v)) = [] := by
          refine List.filter_eq_nil_iff.mpr (fun x hx hpx => ?_)
          have hfxv : f x = v := of_decide_eq_true (Bool.and_elim_right hpx)
          exact ha x hx (hfav.trans hfxv.symm)
        simp [List.filter_cons, hk, hempty]
      · simpa [List.filter_cons, hk] using ih ht

theorem matchSel_length_le_one (objectid : ℕ) (raw : List CatRow)
    (h : raw.Pairwise (fun a b => a.dist ≠ b.dist)) :
    (matchSel objectid raw).length ≤ 1 := by
  have hpw : (raw.map (fun r =>
      ({ r with dist := r.dist * 3600, input_object_name := objectid } : CatRow))).Pairwise
      (fun a b => a.dist ≠ b.dist) := by
    refine (List.pairwise_map).mpr (List.Pairwise.imp ?_ h)
    intro a b hab habs
    exact hab (by simpa using habs)
  simp only [matchSel]
  split
  · simp
  · next d0 ds heq =>
      rw [heq] at hpw ⊢
      exact filter_eq_value_length_le_one CatRow.dist
        (fun r => decide (r.dist < 1)) _ (d0 :: ds) hpw

theorem matchSel_mem_spec (objectid : ℕ) (raw : List CatRow) (r : CatRow)
    (hr : r ∈ matchSel objectid raw) :
    r.dist < 1 ∧ r.input_object_name = objectid ∧
    ∀ r' ∈ raw, r.dist ≤ r'.dist * 3600 := by
  simp only [matchSel] at hr
  split at hr
  · simp at hr
  · next d0 ds heq =>
      rcases List.mem_filter.mp hr with ⟨hmem, hcond⟩
      have h1 : r.dist < 1 := of_decide_eq_true (Bool.and_elim_left hcond)
      have h2 : r.dist = ds.foldl (fun b x => min b x.dist) d0.dist :=
        of_decide_eq_true (Bool.and_elim_right hcond)
      have hio : r.input_object_name = objectid := by
        rcases List.mem_map.mp hmem with ⟨r', _, hr'⟩
        rw [← hr']
      refine ⟨h1, hio, fun r' hr' => ?_⟩
      have hin : ({ r' with dist := r'.dist * 3600, input_object_name := objectid } : CatRow)
          ∈ raw.map (fun r =>
            ({ r with dist := r.dist * 3600, input_object_name := objectid } : CatRow)) :=
        List.mem_map.mpr ⟨r', hr', rfl⟩
      rw [heq] at hin
      rcases List.mem_cons.mp hin with h | h
      · have : d0.dist = r'.dist * 3600 := by rw [← h]
        rw [h2, ← this]
        exact (foldlMin_le ds d0.dist).1
      · have := (foldlMin_le ds d0.dist).2 _ h
        rw [h2]
        simpa using this

theorem foldl_pdConcat_indexNames (l : List DataFrame) (d : DataFrame) :
    (l.foldl pdConcat d).indexNames = d.indexNames := by
  induction l generalizing d with
  | nil => rfl
  | cons x xs ih => simpa [pdConcat] using ih (pdConcat d x)

theorem foldl_pdConcat_cols (l : List DataFrame) (d : DataFrame) :
    (l.foldl pdConcat d).cols = d.cols := by
  induction l generalizing d with
  | nil => rfl
  | cons x xs ih => simpa [pdConcat] using ih (pdConcat d x)

theorem foldl_pdConcat_rows (l : List DataFrame) (d : DataFrame) :
    (l.foldl pdConcat d).rows = d.rows ++ l.flatMap DataFrame.rows := by
  induction l generalizing d with
  | nil => simp
  | cons x xs ih =>
      rw [List.foldl_cons, ih (pdConcat d x), List.flatMap_cons]
      simp [pdConcat, List.append_assoc]

theorem concatAll_some_rows (dfs : List DataFrame) (df : DataFrame)
    (h : concatAll dfs = some df) :
    df.rows = dfs.flatMap DataFrame.rows := by
  match dfs with
  | [] => simp [concatAll] at h
  | d :: rest =>
      simp only [concatAll, Option.some.injEq] at h
      rw [← h, foldl_pdConcat_rows, List.flatMap_cons]

theorem concatAll_some_schema (dfs : List DataFrame) (df d : DataFrame)
    (h : concatAll dfs = some df) (hd : d ∈ dfs)
    (hschema : ∀ x ∈ dfs, x.indexNames = d.indexNames ∧ x.cols = d.cols) :
    df.indexNames = d.indexNames ∧ df.cols = d.cols := by
  match dfs with
  | [] => simp [concatAll] at h
  | d0 :: rest =>
      simp only [concatAll, Option.some.injEq] at h
      rw [← h, foldl_pdConcat_indexNames, foldl_pdConcat_cols]
      exact hschema d0 (List.mem_cons_self d0 rest)

theorem epochDF_schema (exp10 : ℚ → ℚ) (ln10 : ℚ) (objectid : ℕ) (lab : String)
    (bandTabs : List (String × List LCEntry)) (band : GaiaBand) :
    (epochDF exp10 ln10 objectid lab bandTabs band).indexNames = gaiaIndexNames ∧
    (epochDF exp10 ln10 objectid lab bandTabs band).cols = ["flux", "err"] :=
  ⟨rfl, rfl⟩

theorem fallbackDF_schema (exp10 : ℚ → ℚ) (ln10 : ℚ) (objectid : ℕ) (lab : String)
    (sel : List PhotRow) (band : GaiaBand) :
    (fallbackDF exp10 ln10 objectid lab sel band).indexNames = gaiaIndexNames ∧
    (fallbackDF exp10 ln10 objectid lab sel band).cols = ["flux", "err"] :=
  ⟨rfl, rfl⟩

theorem objectDFs_schema (exp10 : ℚ → ℚ) (ln10 : ℚ) (labels_list : ℕ → String)
    (gaia_phot : List PhotRow)
    (gaia_epoch_phot : List (ℕ × List (String × List LCEntry))) (objectid : ℕ) :
    ∀ df ∈ gaiaObjectDFs exp10 ln10 labels_list gaia_phot gaia_epoch_phot objectid,
      df.indexNames = gaiaIndexNames ∧ df.cols = ["flux", "err"] := by
  intro df hdf
  simp only [gaiaObjectDFs] at hdf
  split at hdf
  · simp at hdf
  · split at hdf
    · rcases List.mem_map.mp hdf with ⟨band, _, hband⟩
      rw [← hband]
      exact epochDF_schema _ _ _ _ _ _
    · rcases List.mem_map.mp hdf with ⟨band, _, hband⟩
      rw [← hband]
      exact fallbackDF_schema _ _ _ _ _ _

theorem mk_multiindex_ok_rows (exp10 : ℚ → ℚ) (ln10 : ℚ)
    (coords_list : List (ℕ × Coord)) (labels_list : ℕ → String)
    (gaia_phot : List PhotRow)
    (gaia_epoch_phot : List (ℕ × List (String × List LCEntry))) (df : DataFrame)
    (h : Gaia_mk_MultiIndex exp10 ln10 coords_list labels_list gaia_phot
      gaia_epoch_phot = .ok df) :
    df.rows = (coords_list.flatMap (fun oc =>
      gaiaObjectDFs exp10 ln10 labels_list gaia_phot gaia_epoch_phot oc.1)).flatMap
      DataFrame.rows := by
  simp only [Gaia_mk_MultiIndex] at h
  split at h
  · exact absurd h (by simp)
  · next dfs hsome =>
      cases h
      exact concatAll_some_rows _ _ hsome

theorem lookup_mem {α β : Type} [BEq α] [LawfulBEq α] (k : α)
    (l : List (α × β)) (v : β) (h : l.lookup k = some v) : (k, v) ∈ l := by
  induction l with
  | nil => simp [List.lookup] at h
  | cons kv rest ih =>
      obtain ⟨a, b⟩ := kv
      simp only [List.lookup] at h
      split at h
      · next heq =>
          cases h
          have hk : k = a := eq_of_beq heq
          subst hk
          exact List.mem_cons_self _ _
      · exact List.mem_cons_of_mem _ (ih h)

theorem plotLoop_ok (plotBand : ℕ → GaiaBand → Except PlotErr Unit)
    (ids : List ℕ) :
    ∃ l, plotLoop plotBand ids = .ok l ∧ l.map Prod.fst = ids := by
  induction ids with
  | nil => exact ⟨[], rfl, rfl⟩
  | cons objectid rest ih =>
      rcases ih with ⟨l, hl, hmap⟩
      refine ⟨(match plotBands plotBand objectid gaiaBands with
        | .error _ => (objectid, false)
        | .ok _ => (objectid, true)) :: l, ?_, ?_⟩
      · simp only [plotLoop, hl]
      · simp only [List.map_cons, hmap, List.cons.injEq, and_true]
        split <;> rfl

/-! ## Claims -/

/-- C1: for every non-empty `coords_list` for which `Gaia_mk_MultiIndex`
returns, the returned frame is a long-format table indexed by
`(objectid, label, band, time)` whose data columns are exactly `flux`
and `err`. -/
theorem gaia_mk_multiindex_long_format (exp10 : ℚ → ℚ) (ln10 : ℚ)
    (coords_list : List (ℕ × Coord)) (labels_list : ℕ → String)
    (gaia_phot : List PhotRow)
    (gaia_epoch_phot : List (ℕ × List (String × List LCEntry)))
    (df : DataFrame) (hne : coords_list ≠ [])
    (hok : Gaia_mk_MultiIndex exp10 ln10 coords_list labels_list gaia_phot
      gaia_epoch_phot = .ok df) :
    df.indexNames = ["objectid", "label", "band", "time"] ∧
    df.cols = ["flux", "err"] := by
  have hall : ∀ x ∈ coords_list.flatMap (fun oc =>
      gaiaObjectDFs exp10 ln10 labels_list gaia_phot gaia_epoch_phot oc.1),
      x.indexNames = gaiaIndexNames ∧ x.cols = ["flux", "err"] := by
    intro x hx
    rcases List.mem_flatMap.mp hx with ⟨oc, _, hxin⟩
    exact objectDFs_schema _ _ _ _ _ _ x hxin
  simp only [Gaia_mk_MultiIndex] at hok
  split at hok
  · exact absurd hok (by simp)
  · next d hsome =>
      cases hok
      cases hL : coords_list.flatMap (fun oc =>
          gaiaObjectDFs exp10 ln10 labels_list gaia_phot gaia_epoch_phot oc.1) with
      | nil => rw [hL] at hsome; simp [concatAll] at hsome
      | cons d0 rest =>
          rw [hL] at hsome
          simp only [concatAll, Option.some.injEq] at hsome
          have h0 := hall d0 (hL ▸ List.mem_cons_self d0 rest)
          rw [← hsome, foldl_pdConcat_indexNames, foldl_pdConcat_cols]
          simpa [gaiaIndexNames] using h0

theorem gaia_mk_multiindex_long_format_witness :
    Gaia_mk_MultiIndex wExp10 wLn10 [(0, 0)] wLabels [wPhot] [] = .ok wDF ∧
    wDF.indexNames = ["objectid", "label", "band", "time"] ∧
    wDF.cols = ["flux", "err"] :=
  have h : Gaia_mk_MultiIndex wExp10 wLn10 [(0, 0)] wLabels [wPhot] []
      = .ok wDF := by with_unfolding_all rfl
  ⟨h, gaia_mk_multiindex_long_format wExp10 wLn10 [(0, 0)] wLabels
    [wPhot] [] wDF (by decide) h⟩

/-- C2 counterexample: with two catalog rows tied at exactly the same
distance (0.5 arcsec) from one input coordinate,
`Gaia_retrieve_median_photometry` adds both of them for that coordinate,
so more than one nearest-neighbor row per input coordinate appears in
the result table. -/
theorem gaia_match_tie_counterexample :
    ((Gaia_retrieve_median_photometry wCS2 [(0, 0)] wLabels
        "gaiaedr3.gaia_source" 20).1.filter
      (fun r => r.input_object_name == 0)).length = 2 ∧
    ¬ ((Gaia_retrieve_median_photometry wCS2 [(0, 0)] wLabels
        "gaiaedr3.gaia_source" 20).1.filter
      (fun r => r.input_object_name == 0)).length ≤ 1 := by
  exact of_decide_eq_true (by with_unfolding_all rfl)

/-- C2 (amended): for every input coordinate the rows added are exactly
the returned rows lying strictly within the fixed 1-arcsec match radius
and attaining the minimal distance among returned rows; when no two
returned rows are at exactly the same distance, this is at most one row
per input coordinate. -/
theorem gaia_match_minimal_rows (cs : Coord → List CatRow)
    (coords_list : List (ℕ × Coord)) (labels_list : ℕ → String)
    (gaia_source_table : String) (search_radius : ℚ) :
    (Gaia_retrieve_median_photometry cs coords_list labels_list
        gaia_source_table search_radius).1
      = coords_list.flatMap (fun oc => matchSel oc.1 (cs oc.2)) ∧
    (∀ objectid raw, raw.Pairwise (fun a b => a.dist ≠ b.dist) →
      (matchSel objectid raw).length ≤ 1) ∧
    (∀ objectid raw r, r ∈ matchSel objectid raw →
      r.dist < 1 ∧ r.input_object_name = objectid ∧
      ∀ r' ∈ raw, r.dist ≤ r'.dist * 3600) :=
  ⟨retrieve_fst cs coords_list labels_list gaia_source_table search_radius,
   fun objectid raw h => matchSel_length_le_one objectid raw h,
   fun objectid raw r hr => matchSel_mem_spec objectid raw r hr⟩

theorem gaia_match_minimal_rows_witness :
    (matchSel 0 (wCS1 0)).length ≤ 1 ∧
    wCatASel.dist < 1 ∧ wCatASel.input_object_name = 0 :=
  ⟨(gaia_match_minimal_rows wCS1 [(0, 0)] wLabels "gaiaedr3.gaia_source"
      20).2.1 0 (wCS1 0) (by simp [wCS1]),
   ((gaia_match_minimal_rows wCS1 [(0, 0)] wLabels "gaiaedr3.gaia_source"
      20).2.2 0 (wCS1 0) wCatASel (of_decide_eq_true (by with_unfolding_all rfl))).1,
   ((gaia_match_minimal_rows wCS1 [(0, 0)] wLabels "gaiaedr3.gaia_source"
      20).2.2 0 (wCS1 0) wCatASel (of_decide_eq_true (by with_unfolding_all rfl))).2.1⟩

/-- C5: an input coordinate with no match in the Gaia catalog table
contributes no rows and raises no error; `Gaia_mk_MultiIndex` behaves
exactly as on the list with that coordinate removed (in particular, if
the remaining objects yield a table, that same table is returned). -/
theorem gaia_skip_unmatched (exp10 : ℚ → ℚ) (ln10 : ℚ)
    (l1 l2 : List (ℕ × Coord)) (objectid : ℕ) (coord : Coord)
    (labels_list : ℕ → String) (gaia_phot : List PhotRow)
    (gaia_epoch_phot : List (ℕ × List (String × List LCEntry)))
    (hnomatch : gaia_phot.filter (fun p => p.input_object_name == objectid) = []) :
    Gaia_mk_MultiIndex exp10 ln10 (l1 ++ (objectid, coord) :: l2) labels_list
        gaia_phot gaia_epoch_phot
      = Gaia_mk_MultiIndex exp10 ln10 (l1 ++ l2) labels_list gaia_phot
        gaia_epoch_phot := by
  have hobj : gaiaObjectDFs exp10 ln10 labels_list gaia_phot gaia_epoch_phot
      objectid = [] := by
    simp only [gaiaObjectDFs, hnomatch]
  simp only [Gaia_mk_MultiIndex, List.flatMap_append, List.flatMap_cons, hobj,
    List.nil_append]

theorem gaia_skip_unmatched_witness :
    Gaia_mk_MultiIndex wExp10 wLn10 [(1, 5), (0, 0)] wLabels [wPhot] []
      = Gaia_mk_MultiIndex wExp10 wLn10 [(0, 0)] wLabels [wPhot] [] :=
  gaia_skip_unmatched wExp10 wLn10 [] [(0, 0)] 1 5 wLabels [wPhot] []
    (of_decide_eq_true rfl)

/-- C8: when no input coordinate has a match in the Gaia catalog table,
no `dfsingle` frame is ever created, the accumulator `this_df_lc` is
never bound, and `Gaia_mk_MultiIndex` raises `NameError` /
`UnboundLocalError` at its `return` statement instead of returning an
empty table. -/
theorem gaia_all_unmatched_name_error (exp10 : ℚ → ℚ) (ln10 : ℚ)
    (coords_list : List (ℕ × Coord)) (labels_list : ℕ → String)
    (gaia_phot : List PhotRow)
    (gaia_epoch_phot : List (ℕ × List (String × List LCEntry)))
    (h : ∀ oc ∈ coords_list,
      gaia_phot.filter (fun p => p.input_object_name == oc.1) = []) :
    Gaia_mk_MultiIndex exp10 ln10 coords_list labels_list gaia_phot
      gaia_epoch_phot = .error .nameError := by
  have hflat : ∀ (cl : List (ℕ × Coord)), (∀ oc ∈ cl,
      gaia_phot.filter (fun p => p.input_object_name == oc.1) = []) →
      cl.flatMap (fun oc =>
        gaiaObjectDFs exp10 ln10 labels_list gaia_phot gaia_epoch_phot oc.1)
        = [] := by
    intro cl
    induction cl with
    | nil => intro _; rfl
    | cons oc rest ih =>
        intro hcl
        rw [List.flatMap_cons, ih (fun x hx => hcl x (List.mem_cons_of_mem _ hx))]
        have hobj : gaiaObjectDFs exp10 ln10 labels_list gaia_phot
            gaia_epoch_phot oc.1 = [] := by
          simp only [gaiaObjectDFs, hcl oc (List.mem_cons_self _ _)]
        rw [hobj]
        rfl
  simp [Gaia_mk_MultiIndex, hflat coords_list h, concatAll]

theorem gaia_all_unmatched_name_error_witness :
    Gaia_mk_MultiIndex wExp10 wLn10 [(3, 0)] wLabels [wPhot] []
      = .error .nameError :=
  gaia_all_unmatched_name_error wExp10 wLn10 [(3, 0)] wLabels [wPhot] []
    (by
      intro oc hoc
      simp only [List.mem_singleton] at hoc
      subst hoc
      exact of_decide_eq_true rfl)

theorem objectDFs_fallback (exp10 : ℚ → ℚ) (ln10 : ℚ) (labels_list : ℕ → String)
    (gaia_phot : List PhotRow)
    (gaia_epoch_phot : List (ℕ × List (String × List LCEntry)))
    (objectid : ℕ) (p0 : PhotRow) (rest : List PhotRow)
    (hsel : gaia_phot.filter (fun p => p.input_object_name == objectid) = p0 :: rest)
    (hnoep : gaia_epoch_phot.lookup p0.source_id = none) :
    gaiaObjectDFs exp10 ln10 labels_list gaia_phot gaia_epoch_phot objectid
      = gaiaBands.map (fun band =>
          fallbackDF exp10 ln10 objectid (labels_list objectid) (p0 :: rest) band) := by
  simp only [gaiaObjectDFs, hsel, hnoep]

theorem mk_multiindex_ok_mem (exp10 : ℚ → ℚ) (ln10 : ℚ)
    (coords_list : List (ℕ × Coord)) (labels_list : ℕ → String)
    (gaia_phot : List PhotRow)
    (gaia_epoch_phot : List (ℕ × List (String × List LCEntry))) (df : DataFrame)
    (objectid : ℕ) (coord : Coord) (df' : DataFrame) (r : LCRow)
    (hok : Gaia_mk_MultiIndex exp10 ln10 coords_list labels_list gaia_phot
      gaia_epoch_phot = .ok df)
    (hoc : (objectid, coord) ∈ coords_list)
    (hdf' : df' ∈ gaiaObjectDFs exp10 ln10 labels_list gaia_phot gaia_epoch_phot
      objectid)
    (hr : r ∈ df'.rows) : r ∈ df.rows := by
  rw [mk_multiindex_ok_rows exp10 ln10 coords_list labels_list gaia_phot
    gaia_epoch_phot df hok]
  exact List.mem_flatMap.mpr
    ⟨df', List.mem_flatMap.mpr ⟨(objectid, coord), hoc, hdf'⟩, hr⟩

theorem objectDFs_rows_spec (exp10 : ℚ → ℚ) (ln10 : ℚ) (labels_list : ℕ → String)
    (gaia_phot : List PhotRow)
    (gaia_epoch_phot : List (ℕ × List (String × List LCEntry))) (objectid : ℕ) :
    ∀ df' ∈ gaiaObjectDFs exp10 ln10 labels_list gaia_phot gaia_epoch_phot
      objectid, ∀ r ∈ df'.rows,
      (∃ e, entryInEpoch gaia_epoch_phot e ∧
        r.flux = gaiaMagToFlux exp10 e.mag ∧
        r.err = gaiaFluxErr ln10 e.magerr r.flux ∧
        r.time = e.time_jd - 2400000.5) ∨
      (∃ p ∈ gaia_phot, ∃ b : GaiaBand,
        r.flux = gaiaMagToFlux exp10 (p.meanMag b) ∧
        r.err = gaiaFluxErr ln10 (p.meanMagErr b) r.flux ∧
        r.time = gaiaFallbackMJD) := by
  intro df' hdf' r hr
  simp only [gaiaObjectDFs] at hdf'
  split at hdf'
  · simp at hdf'
  · next p0 rest heq =>
      split at hdf'
      · next bandTabs hlk =>
          rcases List.mem_map.mp hdf' with ⟨band, _, hdfeq⟩
          rw [← hdfeq] at hr
          left
          cases hlkb : bandTabs.lookup band.str with
          | none =>
              rw [show (epochDF exp10 ln10 objectid (labels_list objectid)
                bandTabs band).rows = ((bandTabs.lookup band.str).getD []).map _
                from rfl, hlkb] at hr
              simp at hr
          | some entries =>
              rw [show (epochDF exp10 ln10 objectid (labels_list objectid)
                bandTabs band).rows = ((bandTabs.lookup band.str).getD []).map _
                from rfl, hlkb] at hr
              rcases List.mem_map.mp hr with ⟨e, he, hre⟩
              subst hre
              exact ⟨e, ⟨(p0.source_id, bandTabs), lookup_mem _ _ _ hlk,
                (band.str, entries), lookup_mem _ _ _ hlkb, he⟩, rfl, rfl, rfl⟩
      · next hlk =>
          rcases List.mem_map.mp hdf' with ⟨band, _, hdfeq⟩
          rw [← hdfeq] at hr
          rcases List.mem_map.mp hr with ⟨p, hp, hrp⟩
          subst hrp
          right
          refine ⟨p, List.mem_of_mem_filter hp, band, ?_⟩
          cases band <;> exact ⟨rfl, rfl, rfl⟩

/-- C3: a matched source whose `source_id` is absent from the
epoch-photometry dictionary falls back to the mean photometry:
`Gaia_mk_MultiIndex` emits, for each of the bands G, BP, RP, a row for
that object whose flux is derived from the source's
`phot_(band)_mean_mag` by the magnitude-to-flux conversion. -/
theorem gaia_fallback_mean_photometry (exp10 : ℚ → ℚ) (ln10 : ℚ)
    (coords_list : List (ℕ × Coord)) (labels_list : ℕ → String)
    (gaia_phot : List PhotRow)
    (gaia_epoch_phot : List (ℕ × List (String × List LCEntry))) (df : DataFrame)
    (objectid : ℕ) (coord : Coord) (p0 : PhotRow) (rest : List PhotRow)
    (hmem : (objectid, coord) ∈ coords_list)
    (hsel : gaia_phot.filter (fun p => p.input_object_name == objectid)
      = p0 :: rest)
    (hnoep : gaia_epoch_phot.lookup p0.source_id = none)
    (hok : Gaia_mk_MultiIndex exp10 ln10 coords_list labels_list gaia_phot
      gaia_epoch_phot = .ok df) :
    ∀ band : GaiaBand, ∃ r ∈ df.rows,
      r.objectid = objectid ∧ r.band = "Gaia " ++ band.str.toLower ∧
      r.flux = gaiaMagToFlux exp10 (p0.meanMag band) ∧
      r.err = gaiaFluxErr ln10 (p0.meanMagErr band) r.flux := by
  intro band
  have hobj := objectDFs_fallback exp10 ln10 labels_list gaia_phot
    gaia_epoch_phot objectid p0 rest hsel hnoep
  have hdfmem : fallbackDF exp10 ln10 objectid (labels_list objectid)
      (p0 :: rest) band ∈ gaiaObjectDFs exp10 ln10 labels_list gaia_phot
      gaia_epoch_phot objectid := by
    rw [hobj]
    refine List.mem_map.mpr ⟨band, ?_, rfl⟩
    cases band <;> simp [gaiaBands]
  have hrmem : ∀ r0, r0 ∈ (fallbackDF exp10 ln10 objectid
      (labels_list objectid) (p0 :: rest) band).rows → r0 ∈ df.rows :=
    fun r0 hr0 => mk_multiindex_ok_mem exp10 ln10 coords_list labels_list
      gaia_phot gaia_epoch_phot df objectid coord _ r0 hok hmem hdfmem hr0
  refine ⟨_, hrmem _ (List.mem_map.mpr ⟨p0, List.mem_cons_self _ _, rfl⟩), ?_⟩
  cases band <;> exact ⟨rfl, rfl, rfl, rfl⟩

theorem gaia_fallback_mean_photometry_witness :
    ∃ r ∈ wDF.rows, r.objectid = 0 ∧ r.band = "Gaia " ++ "G".toLower ∧
      r.flux = gaiaMagToFlux wExp10 (wPhot.meanMag .G) ∧
      r.err = gaiaFluxErr wLn10 (wPhot.meanMagErr .G) r.flux :=
  have hok : Gaia_mk_MultiIndex wExp10 wLn10 [(0, 0)] wLabels [wPhot] []
      = .ok wDF := by with_unfolding_all rfl
  gaia_fallback_mean_photometry wExp10 wLn10 [(0, 0)] wLabels [wPhot] [] wDF
    0 0 wPhot [] (List.mem_cons_self _ _)
    (by with_unfolding_all rfl) rfl hok .G

/-- C4: every row of the frame `Gaia_mk_MultiIndex` returns uses the
same magnitude-to-flux conversion (`flux = 10**(-0.4*(mag - 23.9))/1e3`
mJy, `err = magerr/2.5 * log(10) * flux`), whether it comes from an
epoch-photometry entry or from the mean-photometry fallback, and its
time index value is a Modified Julian Date: the entry's Julian Date
minus 2400000.5 for epoch rows, the MJD of the fixed fallback timestamp
for fallback rows. -/
theorem gaia_unit_consistency (exp10 : ℚ → ℚ) (ln10 : ℚ)
    (coords_list : List (ℕ × Coord)) (labels_list : ℕ → String)
    (gaia_phot : List PhotRow)
    (gaia_epoch_phot : List (ℕ × List (String × List LCEntry))) (df : DataFrame)
    (hok : Gaia_mk_MultiIndex exp10 ln10 coords_list labels_list gaia_phot
      gaia_epoch_phot = .ok df) :
    ∀ r ∈ df.rows,
      (∃ e, entryInEpoch gaia_epoch_phot e ∧
        r.flux = gaiaMagToFlux exp10 e.mag ∧
        r.err = gaiaFluxErr ln10 e.magerr r.flux ∧
        r.time = e.time_jd - 2400000.5) ∨
      (∃ p ∈ gaia_phot, ∃ b : GaiaBand,
        r.flux = gaiaMagToFlux exp10 (p.meanMag b) ∧
        r.err = gaiaFluxErr ln10 (p.meanMagErr b) r.flux ∧
        r.time = gaiaFallbackMJD) := by
  intro r hr
  rw [mk_multiindex_ok_rows exp10 ln10 coords_list labels_list gaia_phot
    gaia_epoch_phot df hok] at hr
  rcases List.mem_flatMap.mp hr with ⟨df', hdf', hrdf'⟩
  rcases List.mem_flatMap.mp hdf' with ⟨oc, _, hdfin⟩
  exact objectDFs_rows_spec exp10 ln10 labels_list gaia_phot gaia_epoch_phot
    oc.1 df' hdfin r hrdf'

theorem gaia_unit_consistency_witness :
    (∃ e, entryInEpoch [] e ∧
      wRowG.flux = gaiaMagToFlux wExp10 e.mag ∧
      wRowG.err = gaiaFluxErr wLn10 e.magerr wRowG.flux ∧
      wRowG.time = e.time_jd - 2400000.5) ∨
    (∃ p ∈ [wPhot], ∃ b : GaiaBand,
      wRowG.flux = gaiaMagToFlux wExp10 (p.meanMag b) ∧
      wRowG.err = gaiaFluxErr wLn10 (p.meanMagErr b) wRowG.flux ∧
      wRowG.time = gaiaFallbackMJD) :=
  gaia_unit_consistency wExp10 wLn10 [(0, 0)] wLabels [wPhot] [] wDF
    (by with_unfolding_all rfl) wRowG (by simp [wDF, wRowG])

/-- C10: every mean-photometry fallback row, for every source and every
band, carries the same hard-coded time index — the Modified Julian Date
of the fixed timestamp 2015-09-24T19:40:33.468 (= 57289 +
70833468/86400000 days) — whatever the photometry values and whatever
the epoch data of other sources are, i.e. independent of any actual
observation time. -/
theorem gaia_fallback_fixed_epoch (exp10 : ℚ → ℚ) (ln10 : ℚ)
    (labels_list : ℕ → String) (gaia_phot : List PhotRow)
    (gaia_epoch_phot : List (ℕ × List (String × List LCEntry)))
    (objectid : ℕ) (p0 : PhotRow) (rest : List PhotRow)
    (hsel : gaia_phot.filter (fun p => p.input_object_name == objectid)
      = p0 :: rest)
    (hnoep : gaia_epoch_phot.lookup p0.source_id = none) :
    (∀ df' ∈ gaiaObjectDFs exp10 ln10 labels_list gaia_phot gaia_epoch_phot
      objectid, ∀ r ∈ df'.rows, r.time = gaiaFallbackMJD) ∧
    gaiaFallbackMJD = 57289 + 5902789/7200000 := by
  constructor
  · intro df' hdf' r hr
    rw [objectDFs_fallback exp10 ln10 labels_list gaia_phot gaia_epoch_phot
      objectid p0 rest hsel hnoep] at hdf'
    rcases List.mem_map.mp hdf' with ⟨band, _, hdfeq⟩
    rw [← hdfeq] at hr
    rcases List.mem_map.mp hr with ⟨p, _, hrp⟩
    rw [← hrp]
  · with_unfolding_all rfl

theorem gaia_fallback_fixed_epoch_witness :
    wRowG.time = gaiaFallbackMJD ∧
    gaiaFallbackMJD = 57289 + 5902789/7200000 :=
  have h := gaia_fallback_fixed_epoch wExp10 wLn10 wLabels [wPhot] [] 0 wPhot
    [] (by with_unfolding_all rfl) rfl
  have hmemdf : fallbackDF wExp10 wLn10 0 (wLabels 0) [wPhot] .G
      ∈ gaiaObjectDFs wExp10 wLn10 wLabels [wPhot] [] 0 := by
    rw [objectDFs_fallback wExp10 wLn10 wLabels [wPhot] [] 0 wPhot []
      (by with_unfolding_all rfl) rfl]
    exact List.mem_map.mpr ⟨.G, by simp [gaiaBands], rfl⟩
  have hmemrow : wRowG
      ∈ (fallbackDF wExp10 wLn10 0 (wLabels 0) [wPhot] .G).rows :=
    List.mem_singleton.mpr (by with_unfolding_all rfl)
  ⟨h.1 _ hmemdf wRowG hmemrow, h.2⟩

/-- C6 counterexample: on a concrete input, the trace of archive
interactions performed by the main entry point `Gaia_get_lightcurve` is
one cone search followed by one bulk DataLink request, and contains no
plotting stage: the claimed fifth pipeline stage (plot) is not executed
by the entry point (plotting lives in the separate function
`Gaia_plot_lightcurves`, which the entry point never calls). -/
theorem gaia_entrypoint_no_plot_counterexample :
    (Gaia_get_lightcurve wExp10 wLn10 (fun _ => []) (fun _ => []) [(0, 0)]
      wLabels).2 = [.coneSearchEv 0 20, .datalinkEv []] ∧
    GaiaEvent.plotEv ∉ (Gaia_get_lightcurve wExp10 wLn10 (fun _ => [])
      (fun _ => []) [(0, 0)] wLabels).2 := by
  have h : (Gaia_get_lightcurve wExp10 wLn10 (fun _ => []) (fun _ => [])
      [(0, 0)] wLabels).2 = [.coneSearchEv 0 20, .datalinkEv []] := by
    with_unfolding_all rfl
  refine ⟨h, ?_⟩
  rw [h]
  simp

/-- C6 (amended): the main entry point `Gaia_get_lightcurve` executes
four pipeline stages in this order — (1) cone-search each input
coordinate against the archive, (2) extract mean photometry, (3) request
per-source epoch photometry in one bulk DataLink call, (4) reshape into
the long-format table — each a single pass (exactly one cone search per
input coordinate and exactly one bulk request, no retry); plotting is
not among the entry point's stages. -/
theorem gaia_pipeline_stage_order (exp10 : ℚ → ℚ) (ln10 : ℚ)
    (cs : Coord → List CatRow)
    (epochSvc : List ℕ → List (ℕ × List EpochRow))
    (coords_list : List (ℕ × Coord)) (labels_list : ℕ → String) :
    (Gaia_get_lightcurve exp10 ln10 cs epochSvc coords_list labels_list).1
      = Gaia_mk_MultiIndex exp10 ln10 coords_list labels_list
          (Gaia_extract_median_photometry ln10
            (Gaia_retrieve_median_photometry cs coords_list labels_list
              "gaiaedr3.gaia_source" 20).1)
          (Gaia_mk_lightcurves ln10
            (Gaia_retrieve_EPOCH_PHOTOMETRY epochSvc
              ((Gaia_extract_median_photometry ln10
                (Gaia_retrieve_median_photometry cs coords_list labels_list
                  "gaiaedr3.gaia_source" 20).1).map
                (fun p => p.source_id))).1) ∧
    (Gaia_get_lightcurve exp10 ln10 cs epochSvc coords_list labels_list).2
      = coords_list.map (fun oc => .coneSearchEv oc.2 20)
        ++ [.datalinkEv ((Gaia_extract_median_photometry ln10
            (Gaia_retrieve_median_photometry cs coords_list labels_list
              "gaiaedr3.gaia_source" 20).1).map (fun p => p.source_id))] ∧
    ((Gaia_get_lightcurve exp10 ln10 cs epochSvc coords_list
        labels_list).2.countP (fun e => match e with
          | .coneSearchEv _ _ => true | _ => false)) = coords_list.length ∧
    ((Gaia_get_lightcurve exp10 ln10 cs epochSvc coords_list
        labels_list).2.countP (fun e => match e with
          | .datalinkEv _ => true | _ => false)) = 1 ∧
    GaiaEvent.plotEv ∉
      (Gaia_get_lightcurve exp10 ln10 cs epochSvc coords_list labels_list).2 := by
  have htr : (Gaia_get_lightcurve exp10 ln10 cs epochSvc coords_list
      labels_list).2
      = coords_list.map (fun oc => .coneSearchEv oc.2 20)
        ++ [.datalinkEv ((Gaia_extract_median_photometry ln10
            (Gaia_retrieve_median_photometry cs coords_list labels_list
              "gaiaedr3.gaia_source" 20).1).map (fun p => p.source_id))] := by
    show (Gaia_retrieve_median_photometry cs coords_list labels_list
        "gaiaedr3.gaia_source" 20).2 ++ _ = _
    rw [retrieve_snd]
    exact rfl
  refine ⟨rfl, htr, ?_, ?_, ?_⟩
  · rw [htr]
    simp [List.countP_append, List.countP_map, List.countP_cons, Function.comp]
  · rw [htr]
    simp [List.countP_append, List.countP_map, List.countP_cons, Function.comp]
  · rw [htr]
    simp [List.mem_append, List.mem_map]

/-- C7: plotting failures per object are swallowed:
`Gaia_plot_lightcurves` attempts every one of the first `nbr_objects`
object ids — whatever the per-band plotting action does, including
raising on some objects — never propagates an error, and returns
`True`. -/
theorem gaia_plot_swallows_failures
    (plotBand : ℕ → GaiaBand → Except PlotErr Unit) (df : DataFrame)
    (nbr_objects : ℕ) :
    ∃ l, Gaia_plot_lightcurves plotBand df nbr_objects = .ok (true, l) ∧
      l.map Prod.fst = (gaiaObjectIds df).take nbr_objects := by
  rcases plotLoop_ok plotBand ((gaiaObjectIds df).take nbr_objects) with
    ⟨l, hl, hmap⟩
  exact ⟨l, by simp only [Gaia_plot_lightcurves, hl], hmap⟩

/-- C9: every entry of every per-band light-curve table produced by
`Gaia_mk_lightcurves` is the conversion of an epoch-photometry row of
the same source whose `band` equals that table's band and whose
`rejected_by_photometry` flag is `False`; rejected epochs never yield
entries. -/
theorem gaia_lightcurves_band_filter (ln10 : ℚ)
    (prod_tab : List (ℕ × List EpochRow)) (sid : ℕ)
    (bandTabs : List (String × List LCEntry)) (bstr : String)
    (entries : List LCEntry) (e : LCEntry)
    (h1 : (sid, bandTabs) ∈ Gaia_mk_lightcurves ln10 prod_tab)
    (h2 : (bstr, entries) ∈ bandTabs) (h3 : e ∈ entries) :
    ∃ rows, (sid, rows) ∈ prod_tab ∧ ∃ er ∈ rows,
      er.band = bstr ∧ er.rejected_by_photometry = false ∧
      e = { time_jd := er.time + 2455197.5, mag := er.mag,
            magerr := 5/2 / ln10 * er.flux_error / er.flux } := by
  rcases List.mem_map.mp h1 with ⟨kv, hkv, hkveq⟩
  injection hkveq with hsid hbt
  subst hsid
  subst hbt
  rcases List.mem_map.mp h2 with ⟨band, _, hbeq⟩
  injection hbeq with hbstr hent
  subst hbstr
  subst hent
  simp only [mkLightcurveBand] at h3
  rcases List.mem_map.mp h3 with ⟨er, herf, heq⟩
  rcases List.mem_filter.mp herf with ⟨herl, hpred⟩
  refine ⟨kv.2, ?_, er, herl, ?_, ?_, heq.symm⟩
  · rw [Prod.mk.eta]
    exact hkv
  · exact eq_of_beq (Bool.and_elim_left hpred)
  · exact eq_of_beq (Bool.and_elim_right hpred)

theorem gaia_lightcurves_band_filter_witness :
    ∃ rows, (5, rows) ∈ wProdTab ∧ ∃ er ∈ rows,
      er.band = "G" ∧ er.rejected_by_photometry = false ∧
      wEntryG = { time_jd := er.time + 2455197.5, mag := er.mag,
                  magerr := 5/2 / wLn10 * er.flux_error / er.flux } :=
  have h0 : Gaia_mk_lightcurves wLn10 wProdTab = [(5, wBandTabs)] := by
    with_unfolding_all rfl
  gaia_lightcurves_band_filter wLn10 wProdTab 5 wBandTabs "G" [wEntryG]
    wEntryG (by rw [h0]; exact List.mem_cons_self _ _)
    (List.mem_cons_self _ _) (List.mem_singleton.mpr rfl)
